import Mathlib

set_option maxHeartbeats 1000000

/-!
Shallow embedding of the symbol-property editing core of
pkgs/kicad-parts-manager (kicad-parts.py and update_symbol.py).

Symbols are modelled after the kiutils data classes the scripts manipulate:
a symbol has an entry name and a list of properties; a property has a key,
a value, an optional numeric id, a position and optional text effects.
The contents of a library-table file handled by ensure_lib_in_table are
modelled as a list of characters.
-/

namespace Kicad

/-- Modelled from the spec: the font part of a property's text effects
(the kiutils Font record, which is not part of this repository); the
script only ever sets a width and a height. -/
structure Font where
  width : ℚ
  height : ℚ
  deriving DecidableEq

/-- Modelled from the spec: text effects of a property (the kiutils
Effects record, not part of this repository); the script reads and
writes the hide flag. -/
structure Effects where
  font : Font
  hide : Bool
  deriving DecidableEq

/-- Modelled from the spec: a position (the kiutils Position record,
not part of this repository). -/
structure Position where
  X : ℚ
  Y : ℚ
  angle : ℚ
  deriving DecidableEq

/-- Modelled from the spec: a symbol property (the kiutils Property
record, not part of this repository). The spec's data model gives each
property an identifying numeric id; the id is optional here because the
script constructs new properties without one. -/
structure Property where
  key : String
  value : String
  id : Option Nat
  position : Position
  effects : Option Effects
  deriving DecidableEq

/-- Modelled from the spec: a symbol (the kiutils Symbol record, not part
of this repository), reduced to the fields the verified operations touch:
its entry name and its property list. -/
structure Symbol where
  entryName : String
  properties : List Property
  deriving DecidableEq

/-- The 1.27 mm font size of the default property layout, as the exact
rational 127/100 (written by its constructor so that it evaluates). -/
def fontSize : ℚ := ⟨127, 100, by norm_num, by norm_num⟩

/-- Python str.lower, restricted to the ASCII casing the script relies on. -/
def lower (s : String) : String :=
  ⟨s.data.map Char.toLower⟩

/-- Python str.startswith. -/
def startswith (s p : String) : Bool :=
  p.data.isPrefixOf s.data

/-- Python str.endswith. -/
def endswith (s p : String) : Bool :=
  p.data.isSuffixOf s.data

/-- kicad-parts.py lines 191-196: the scan of get_symbol_property over the
property list, returning the value of the first case-insensitive key match
and the sentinel none when no key matches. -/
def getProps : List Property → String → Option String
  | [], _ => none
  | p :: ps, name => if lower p.key = lower name then some p.value else getProps ps name

/-- kicad-parts.py lines 191-196: get_symbol_property. -/
def get_symbol_property (s : Symbol) (name : String) : Option String :=
  getProps s.properties name

/-- kicad-parts.py lines 202-208: the update applied to the first property
whose key matches case-insensitively: its value is replaced and the hide
flag of its effects, when effects are present, is set to the hidden
argument. -/
def updMatch (p : Property) (v : String) (hidden : Bool) : Property :=
  { p with value := v, effects := p.effects.map fun e => { e with hide := hidden } }

/-- kicad-parts.py lines 210-216: the property constructed for a key that
is not present yet; no numeric id is assigned. -/
def newProperty (name v : String) (hidden : Bool) : Property :=
  { key := name, value := v, id := none,
    position := { X := 0, Y := 0, angle := 0 },
    effects := some { font := { width := fontSize, height := fontSize }, hide := hidden } }

/-- kicad-parts.py lines 199-217: the effect of set_symbol_property on the
property list: the first case-insensitive key match is updated in place,
otherwise the new property is appended at the end. -/
def setProps : List Property → String → String → Bool → List Property
  | [], name, v, hidden => [newProperty name v hidden]
  | p :: ps, name, v, hidden =>
    if lower p.key = lower name then updMatch p v hidden :: ps
    else p :: setProps ps name v hidden

/-- kicad-parts.py lines 199-217: set_symbol_property. -/
def set_symbol_property (s : Symbol) (name v : String) (hidden : Bool) : Symbol :=
  { s with properties := setProps s.properties name v hidden }

/-- kicad-parts.py line 221: the property keys kept visible. -/
def VISIBLE_PROPERTIES : List String := ["Reference", "Value"]

/-- kicad-parts.py lines 224-229: the per-property step of
normalize_symbol_visibility: case-sensitive membership in
VISIBLE_PROPERTIES decides the hide flag; a property without effects is
left untouched. -/
def normProp (p : Property) : Property :=
  match p.effects with
  | none => p
  | some e =>
    { p with effects := some { e with hide := if p.key ∈ VISIBLE_PROPERTIES then false else true } }

/-- kicad-parts.py lines 224-229: normalize_symbol_visibility. -/
def normalize_symbol_visibility (s : Symbol) : Symbol :=
  { s with properties := s.properties.map normProp }

/-- kicad-parts.py line 1222 (cmd_delete; same shape at line 999 in
cmd_accept's cleanup): removing a symbol keeps exactly the symbols whose
entry name differs. -/
def removeSymbolNamed (syms : List Symbol) (name : String) : List Symbol :=
  syms.filter fun s => s.entryName != name

/-- kicad-parts.py lines 972-974 (cmd_accept): adding an accepted symbol
first drops any symbol with the same entry name and then appends it. -/
def acceptMergeSymbol (syms : List Symbol) (sym : Symbol) : List Symbol :=
  (syms.filter fun s => s.entryName != sym.entryName) ++ [sym]

/-- kicad-parts.py lines 743-748 (cmd_import): merging one imported symbol:
the same-name symbol is dropped only when the entry name is already present
among the existing entry names, then the new symbol is appended. -/
def importMergeSymbol (syms : List Symbol) (sym : Symbol) : List Symbol :=
  if sym.entryName ∈ syms.map Symbol.entryName then
    (syms.filter fun s => s.entryName != sym.entryName) ++ [sym]
  else
    syms ++ [sym]

/-- Python str.rstrip on a list of characters. -/
def rstrip (l : List Char) : List Char :=
  (l.reverse.dropWhile Char.isWhitespace).reverse

/-- Python substring containment (the in operator) on lists of characters. -/
def containsSub (pat : List Char) : List Char → Bool
  | [] => pat.isEmpty
  | c :: t => pat.isPrefixOf (c :: t) || containsSub pat t

/-- kicad-parts.py line 306: the text whose presence in the table marks an
existing entry for the library. -/
def nameEntry (libName : String) : List Char :=
  ("(name \"" ++ libName ++ "\")").data

/-- kicad-parts.py line 310: the library entry line inserted into the table. -/
def libEntry (libName libType libUri : String) : List Char :=
  ("  (lib (name \"" ++ libName ++ "\")(type \"" ++ libType ++ "\")(uri \"" ++ libUri
    ++ "\")(options \"\")(descr \"Custom library\"))\n").data

/-- kicad-parts.py lines 303-317: ensure_lib_in_table on the contents of an
existing table file; returns the new contents and whether an entry was
added. -/
def ensure_lib_in_table (content : List Char) (libName libUri libType : String) :
    List Char × Bool :=
  if containsSub (nameEntry libName) content then (content, false)
  else
    let c := rstrip content
    if c.getLast? = some ')' then
      (c.dropLast ++ libEntry libName libType libUri ++ [')', '\n'], true)
    else
      (content, false)

/-- update_symbol.py lines 82-143: get_pin_type, a total function testing
its rules in a fixed order. -/
def get_pin_type (signal : String) : String :=
  if signal == "VSS" || signal == "DCDC_GND" || signal == "NGND_KEL0" then "power_in"
  else if startswith signal "VDD_" || startswith signal "NVCC_" || startswith signal "VDDA_"
      || startswith signal "DCDC_IN" || startswith signal "DCDC_LP" then "power_in"
  else if endswith signal "_CAP" then "passive"
  else if startswith signal "GPIO_" then "bidirectional"
  else if signal == "USB_OTG1_DP" || signal == "USB_OTG1_DN" || signal == "USB_OTG2_DP"
      || signal == "USB_OTG2_DN" then "bidirectional"
  else if signal == "USB_OTG1_VBUS" || signal == "USB_OTG2_VBUS" then "passive"
  else if signal == "USB_OTG1_CHD_B" then "output"
  else if signal == "PMIC_ON_REQ" || signal == "PMIC_STBY_REQ" then "output"
  else if signal == "XTALI" || signal == "RTC_XTALI" then "input"
  else if signal == "XTALO" || signal == "RTC_XTALO" then "output"
  else if signal == "POR_B" || signal == "TEST_MODE" || signal == "ONOFF" then "input"
  else if signal == "CCM_CLK1_P" || signal == "CCM_CLK1_N" then "input"
  else if signal == "WAKEUP" then "bidirectional"
  else if signal == "DCDC_PSWITCH" || signal == "DCDC_SENSE" then "passive"
  else if signal == "GPANAIO" then "passive"
  else "unspecified"

/-- Disjunction of every rule tested by get_pin_type; a signal matching no
rule falls through to the default "unspecified". -/
def pinRuleMatches (signal : String) : Bool :=
  (signal == "VSS" || signal == "DCDC_GND" || signal == "NGND_KEL0")
  || (startswith signal "VDD_" || startswith signal "NVCC_" || startswith signal "VDDA_"
      || startswith signal "DCDC_IN" || startswith signal "DCDC_LP")
  || endswith signal "_CAP"
  || startswith signal "GPIO_"
  || (signal == "USB_OTG1_DP" || signal == "USB_OTG1_DN" || signal == "USB_OTG2_DP"
      || signal == "USB_OTG2_DN")
  || (signal == "USB_OTG1_VBUS" || signal == "USB_OTG2_VBUS")
  || signal == "USB_OTG1_CHD_B"
  || (signal == "PMIC_ON_REQ" || signal == "PMIC_STBY_REQ")
  || (signal == "XTALI" || signal == "RTC_XTALI")
  || (signal == "XTALO" || signal == "RTC_XTALO")
  || (signal == "POR_B" || signal == "TEST_MODE" || signal == "ONOFF")
  || (signal == "CCM_CLK1_P" || signal == "CCM_CLK1_N")
  || signal == "WAKEUP"
  || (signal == "DCDC_PSWITCH" || signal == "DCDC_SENSE")
  || signal == "GPANAIO"

/-- Concrete position used by the example inputs. -/
def pos0 : Position := { X := 0, Y := 0, angle := 0 }

/-- Concrete visible effects used by the example inputs. -/
def visEffects : Effects :=
  { font := { width := fontSize, height := fontSize }, hide := false }

/-- Example property: a Reference carrying a numeric id. -/
def refProp : Property :=
  { key := "Reference", value := "U", id := some 0, position := pos0, effects := none }

/-- Example property: an MPN that is visible. -/
def mpnVisProp : Property :=
  { key := "MPN", value := "A", id := none, position := pos0, effects := some visEffects }

/-- Example property: an MPN stored with lower-case key text. -/
def lowerMpnProp : Property :=
  { key := "mpn", value := "A", id := none, position := pos0, effects := none }

/-- Example property: an LCSC part number. -/
def lcscProp : Property :=
  { key := "LCSC", value := "C2040", id := none, position := pos0, effects := none }

/-- Example property: a visible property whose key is "value" in lower case. -/
def valueVisProp : Property :=
  { key := "value", value := "10k", id := none, position := pos0, effects := some visEffects }

/-- Example symbol named A with no properties. -/
def symA : Symbol := ⟨"A", []⟩

/-- Example symbol named B. -/
def symB : Symbol := ⟨"B", [lcscProp]⟩

/-- Example symbol named A with a property, distinct from symA. -/
def symA2 : Symbol := ⟨"A", [lcscProp]⟩

/-- Example symbol with two case-variant MPN properties. -/
def exSymC4 : Symbol := ⟨"C2040", [mpnVisProp, lowerMpnProp]⟩

/-- Example symbol with a single LCSC property. -/
def exSymC4b : Symbol := ⟨"C2040", [lcscProp]⟩

/-- Example symbol with a visible lower-case "value" property and an
effects-free LCSC property. -/
def exSymC9 : Symbol := ⟨"R1", [valueVisProp, lcscProp]⟩

theorem getProps_eq_find (props : List Property) (name : String) :
    getProps props name
      = (props.find? fun p => lower p.key == lower name).map Property.value := by
  induction props with
  | nil => rfl
  | cons p ps ih =>
    by_cases h : lower p.key = lower name
    · simp [getProps, List.find?, beq_iff_eq, h]
    · have hb : (lower p.key == lower name) = false := by
        simp [beq_iff_eq, h]
      simp [getProps, List.find?, h, hb, ih]

theorem getProps_nomatch (props : List Property) (name : String)
    (h : ∀ q ∈ props, lower q.key ≠ lower name) :
    getProps props name = none := by
  induction props with
  | nil => rfl
  | cons p ps ih =>
    have hp : lower p.key ≠ lower name := h p (by simp)
    simp [getProps, hp, ih fun q hq => h q (by simp [hq])]

theorem getProps_cons_match (p : Property) (ps : List Property) (name : String)
    (h : lower p.key = lower name) :
    getProps (p :: ps) name = some p.value := by
  simp [getProps, h]

theorem getProps_append_nomatch (pre rest : List Property) (name : String)
    (h : ∀ q ∈ pre, lower q.key ≠ lower name) :
    getProps (pre ++ rest) name = getProps rest name := by
  induction pre with
  | nil => rfl
  | cons q qs ih =>
    have hq : lower q.key ≠ lower name := h q (by simp)
    simp [getProps, hq, ih fun r hr => h r (by simp [hr])]

theorem setProps_cons_match (p : Property) (ps : List Property) (name v : String)
    (hidden : Bool) (h : lower p.key = lower name) :
    setProps (p :: ps) name v hidden = updMatch p v hidden :: ps := by
  simp [setProps, h]

theorem setProps_cons_nomatch (p : Property) (ps : List Property) (name v : String)
    (hidden : Bool) (h : lower p.key ≠ lower name) :
    setProps (p :: ps) name v hidden = p :: setProps ps name v hidden := by
  simp [setProps, h]

theorem setProps_append_nomatch (pre rest : List Property) (name v : String)
    (hidden : Bool) (h : ∀ q ∈ pre, lower q.key ≠ lower name) :
    setProps (pre ++ rest) name v hidden = pre ++ setProps rest name v hidden := by
  induction pre with
  | nil => rfl
  | cons q qs ih =>
    have hq : lower q.key ≠ lower name := h q (by simp)
    simp [setProps, hq, ih fun r hr => h r (by simp [hr])]

theorem setProps_nomatch (props : List Property) (name v : String) (hidden : Bool)
    (h : ∀ q ∈ props, lower q.key ≠ lower name) :
    setProps props name v hidden = props ++ [newProperty name v hidden] := by
  induction props with
  | nil => rfl
  | cons q qs ih =>
    have hq : lower q.key ≠ lower name := h q (by simp)
    simp [setProps, hq, ih fun r hr => h r (by simp [hr])]

theorem updMatch_idem (p : Property) (v : String) (hidden : Bool) :
    updMatch (updMatch p v hidden) v hidden = updMatch p v hidden := by
  cases p with
  | mk k val i pos eff => cases eff <;> rfl

theorem getProps_set (props : List Property) (k v : String) (hidden : Bool) :
    getProps (setProps props k v hidden) k = some v := by
  induction props with
  | nil => simp [setProps, getProps, newProperty]
  | cons p ps ih =>
    by_cases h : lower p.key = lower k
    · simp [setProps, h, getProps, updMatch]
    · simp [setProps, h, getProps, ih]

theorem setProps_idem (props : List Property) (k v : String) (hidden : Bool) :
    setProps (setProps props k v hidden) k v hidden = setProps props k v hidden := by
  induction props with
  | nil =>
    show setProps [newProperty k v hidden] k v hidden = [newProperty k v hidden]
    simp [setProps, newProperty, updMatch]
  | cons p ps ih =>
    by_cases h : lower p.key = lower k
    · rw [setProps_cons_match p ps k v hidden h]
      have hk : lower (updMatch p v hidden).key = lower k := by
        simpa [updMatch] using h
      rw [setProps_cons_match _ ps k v hidden hk, updMatch_idem]
    · rw [setProps_cons_nomatch p ps k v hidden h]
      rw [setProps_cons_nomatch p _ k v hidden h, ih]

/-- Claim C1: after set_symbol_property with key k and value v, a
get_symbol_property of k returns v, and a second identical
set_symbol_property call leaves the symbol's property list unchanged
(set_symbol_property is idempotent). -/
theorem set_property_idempotent (s : Symbol) (k v : String) :
    get_symbol_property (set_symbol_property s k v true) k = some v ∧
    set_symbol_property (set_symbol_property s k v true) k v true
      = set_symbol_property s k v true := by
  cases s with
  | mk n props =>
    constructor
    · simpa [get_symbol_property, set_symbol_property] using getProps_set props k v true
    · simp [set_symbol_property, setProps_idem]

/-- Claim C2 counterexample: set_symbol_property on a symbol whose MPN
property is visible does not leave the matched property's effects
unchanged: the hide flag is forced to the hidden argument, so the claim
that only the value changes is false at this input. -/
theorem set_property_frame_cex :
    (set_symbol_property (Symbol.mk "P1" [mpnVisProp]) "MPN" "B" true).properties.map
        Property.effects
      ≠ (Symbol.mk "P1" [mpnVisProp]).properties.map Property.effects := by
  decide

/-- Claim C2 (amended): for a symbol containing a case-insensitively
matching property, set_symbol_property rewrites that property's value and,
when the property has effects, sets its hide flag to the hidden argument;
the key text, numeric id and position of the matched property and every
other property are left unchanged. -/
theorem set_property_existing_update (ename : String) (pre post : List Property)
    (p : Property) (name v : String) (hidden : Bool)
    (hpre : ∀ q ∈ pre, lower q.key ≠ lower name)
    (hp : lower p.key = lower name) :
    (set_symbol_property (Symbol.mk ename (pre ++ p :: post)) name v hidden).properties
      = pre ++ updMatch p v hidden :: post ∧
    (updMatch p v hidden).key = p.key ∧
    (updMatch p v hidden).id = p.id ∧
    (updMatch p v hidden).position = p.position ∧
    (updMatch p v hidden).value = v := by
  refine ⟨?_, rfl, rfl, rfl, rfl⟩
  simp [set_symbol_property, setProps_append_nomatch pre (p :: post) name v hidden hpre,
    setProps_cons_match p post name v hidden hp]

/-- Claim C2 witness: the amended statement at a concrete symbol with a
Reference property followed by a visible MPN property. -/
theorem set_property_existing_update_witness :
    (set_symbol_property (Symbol.mk "P1" ([refProp] ++ mpnVisProp :: [])) "MPN" "B" true).properties
      = [refProp] ++ updMatch mpnVisProp "B" true :: [] ∧
    (updMatch mpnVisProp "B" true).key = mpnVisProp.key ∧
    (updMatch mpnVisProp "B" true).id = mpnVisProp.id ∧
    (updMatch mpnVisProp "B" true).position = mpnVisProp.position ∧
    (updMatch mpnVisProp "B" true).value = "B" :=
  set_property_existing_update "P1" [refProp] [] mpnVisProp "MPN" "B" true
    (by decide) (by decide)

/-- Claim C3 counterexample: set_symbol_property on a new key for a symbol
whose single property carries id 0 does not append a property with the
fresh id 1, as the claim predicts: the appended property carries no id at
all. -/
theorem set_property_fresh_id_cex :
    (set_symbol_property (Symbol.mk "U1" [refProp]) "MPN" "X" true).properties.map Property.id
      ≠ [some 0, some 1] ∧
    (set_symbol_property (Symbol.mk "U1" [refProp]) "MPN" "X" true).properties.map Property.id
      = [some 0, none] := by
  decide

/-- Claim C3 (amended): set_symbol_property on a key not present in the
symbol appends a new property carrying the key and value but no numeric
id, and the collection of numeric ids of the symbol's properties is
unchanged (no fresh id is computed). -/
theorem set_property_new_key (s : Symbol) (name v : String) (hidden : Bool)
    (h : ∀ q ∈ s.properties, lower q.key ≠ lower name) :
    (set_symbol_property s name v hidden).properties
      = s.properties ++ [newProperty name v hidden] ∧
    (newProperty name v hidden).id = none ∧
    (set_symbol_property s name v hidden).properties.filterMap Property.id
      = s.properties.filterMap Property.id := by
  have h1 := setProps_nomatch s.properties name v hidden h
  refine ⟨by simp [set_symbol_property, h1], rfl, ?_⟩
  simp [set_symbol_property, h1, List.filterMap_append, newProperty]

/-- Claim C3 witness: the amended statement at a concrete symbol holding a
Reference property with id 0. -/
theorem set_property_new_key_witness :
    (set_symbol_property (Symbol.mk "U1" [refProp]) "MPN" "X" true).properties
      = (Symbol.mk "U1" [refProp]).properties ++ [newProperty "MPN" "X" true] ∧
    (newProperty "MPN" "X" true).id = none ∧
    (set_symbol_property (Symbol.mk "U1" [refProp]) "MPN" "X" true).properties.filterMap
        Property.id
      = (Symbol.mk "U1" [refProp]).properties.filterMap Property.id :=
  set_property_new_key (Symbol.mk "U1" [refProp]) "MPN" "X" true (by decide)

/-- Claim C4: get_symbol_property returns the value of the first property
whose key matches the requested name case-insensitively, and returns the
sentinel none, never failing, when no property key matches. -/
theorem get_property_first_match_or_none (s : Symbol) (name : String)
    (t : Symbol) (m : String)
    (habs : ∀ p ∈ t.properties, lower p.key ≠ lower m) :
    get_symbol_property s name
      = (s.properties.find? fun p => lower p.key == lower name).map Property.value ∧
    get_symbol_property t m = none := by
  exact ⟨getProps_eq_find s.properties name, getProps_nomatch t.properties m habs⟩

/-- Claim C4 witness: the first of two case-variant MPN properties wins,
and a missing key yields none on a concrete symbol. -/
theorem get_property_first_match_or_none_witness :
    get_symbol_property exSymC4 "Mpn"
      = (exSymC4.properties.find? fun p => lower p.key == lower "Mpn").map Property.value ∧
    get_symbol_property exSymC4b "MPN" = none :=
  get_property_first_match_or_none exSymC4 "Mpn" exSymC4b "MPN" (by decide)

/-- Claim C8: property key matching is case-insensitive but
case-preserving: when a symbol's property key differs from the requested
name only in letter case, set_symbol_property updates that property's
value in place (no property is added), the stored key text of every
property keeps its original casing, and get_symbol_property with either
casing returns the updated value. -/
theorem property_case_preserving (ename : String) (pre post : List Property)
    (p : Property) (name v : String)
    (hpre : ∀ q ∈ pre, lower q.key ≠ lower name)
    (hp : lower p.key = lower name)
    (_hcase : p.key ≠ name) :
    (set_symbol_property (Symbol.mk ename (pre ++ p :: post)) name v true).properties.length
      = (pre ++ p :: post).length ∧
    (set_symbol_property (Symbol.mk ename (pre ++ p :: post)) name v true).properties.map
        Property.key
      = (pre ++ p :: post).map Property.key ∧
    get_symbol_property (set_symbol_property (Symbol.mk ename (pre ++ p :: post)) name v true)
        name = some v ∧
    get_symbol_property (set_symbol_property (Symbol.mk ename (pre ++ p :: post)) name v true)
        p.key = some v := by
  have hset : (set_symbol_property (Symbol.mk ename (pre ++ p :: post)) name v true).properties
      = pre ++ updMatch p v true :: post := by
    simp [set_symbol_property, setProps_append_nomatch pre (p :: post) name v true hpre,
      setProps_cons_match p post name v true hp]
  have hkey : lower (updMatch p v true).key = lower name := by
    simpa [updMatch] using hp
  refine ⟨?_, ?_, ?_, ?_⟩
  · rw [hset]; simp
  · rw [hset]; simp [updMatch]
  · show getProps _ name = some v
    rw [show (set_symbol_property (Symbol.mk ename (pre ++ p :: post)) name v true).properties
        = pre ++ updMatch p v true :: post from hset,
      getProps_append_nomatch pre _ name hpre,
      getProps_cons_match _ post name hkey]
    simp [updMatch]
  · show getProps _ p.key = some v
    have hpre2 : ∀ q ∈ pre, lower q.key ≠ lower p.key := by
      intro q hq
      rw [hp]
      exact hpre q hq
    have hkey2 : lower (updMatch p v true).key = lower p.key := by
      simp [updMatch]
    rw [show (set_symbol_property (Symbol.mk ename (pre ++ p :: post)) name v true).properties
        = pre ++ updMatch p v true :: post from hset,
      getProps_append_nomatch pre _ p.key hpre2,
      getProps_cons_match _ post p.key hkey2]
    simp [updMatch]

/-- Claim C8 witness: a stored key "mpn" addressed as "MPN" on a concrete
symbol: the value is updated in place, the key keeps its casing, and both
casings read back the new value. -/
theorem property_case_preserving_witness :
    (set_symbol_property (Symbol.mk "C2040" ([refProp] ++ lowerMpnProp :: [])) "MPN"
        "STM32F103" true).properties.length = ([refProp] ++ lowerMpnProp :: []).length ∧
    (set_symbol_property (Symbol.mk "C2040" ([refProp] ++ lowerMpnProp :: [])) "MPN"
        "STM32F103" true).properties.map Property.key
      = ([refProp] ++ lowerMpnProp :: []).map Property.key ∧
    get_symbol_property (set_symbol_property (Symbol.mk "C2040"
        ([refProp] ++ lowerMpnProp :: [])) "MPN" "STM32F103" true) "MPN" = some "STM32F103" ∧
    get_symbol_property (set_symbol_property (Symbol.mk "C2040"
        ([refProp] ++ lowerMpnProp :: [])) "MPN" "STM32F103" true) lowerMpnProp.key
      = some "STM32F103" :=
  property_case_preserving "C2040" [refProp] [] lowerMpnProp "MPN" "STM32F103"
    (by decide) (by decide) (by decide)

/-- Claim C5: after removing the symbol with a given name, the entry names
of the library no longer contain that name, the remaining symbols are a
sublist of the original ones (their content preserved verbatim and
contiguous), every symbol with a different name is still present, and
nothing else was kept. -/
theorem remove_symbol_spec (syms : List Symbol) (name : String) (s : Symbol)
    (hs : s ∈ syms) (hne : s.entryName ≠ name) :
    name ∉ (removeSymbolNamed syms name).map Symbol.entryName ∧
    (removeSymbolNamed syms name).Sublist syms ∧
    s ∈ removeSymbolNamed syms name ∧
    ∀ t, t ∈ removeSymbolNamed syms name → t ∈ syms ∧ t.entryName ≠ name := by
  refine ⟨?_, List.filter_sublist syms, ?_, ?_⟩
  · simp only [removeSymbolNamed, List.mem_map, List.mem_filter, bne_iff_ne]
    rintro ⟨t, ⟨-, tne⟩, teq⟩
    exact tne teq
  · simp [removeSymbolNamed, List.mem_filter, hs, hne]
  · intro t ht
    simpa [removeSymbolNamed, List.mem_filter] using ht

/-- Claim C5 witness: removing A from a concrete two-symbol library keeps
B untouched and drops A. -/
theorem remove_symbol_spec_witness :
    "A" ∉ (removeSymbolNamed [symA, symB] "A").map Symbol.entryName ∧
    (removeSymbolNamed [symA, symB] "A").Sublist [symA, symB] ∧
    symB ∈ removeSymbolNamed [symA, symB] "A" ∧
    ∀ t, t ∈ removeSymbolNamed [symA, symB] "A" → t ∈ [symA, symB] ∧ t.entryName ≠ "A" :=
  remove_symbol_spec [symA, symB] "A" symB (by decide) (by decide)

theorem filtered_names_nodup (syms : List Symbol) (n : String)
    (h : (syms.map Symbol.entryName).Nodup) :
    ((syms.filter fun s => s.entryName != n).map Symbol.entryName).Nodup := by
  have hsub : ((syms.filter fun s => s.entryName != n).map Symbol.entryName).Sublist
      (syms.map Symbol.entryName) := (List.filter_sublist syms).map Symbol.entryName
  exact h.sublist hsub

theorem filtered_names_not_mem (syms : List Symbol) (n : String) :
    n ∉ (syms.filter fun s => s.entryName != n).map Symbol.entryName := by
  simp only [List.mem_map, List.mem_filter, bne_iff_ne]
  rintro ⟨t, ⟨-, tne⟩, teq⟩
  exact tne teq

/-- Claim C6: for a library whose entry names are pairwise distinct, both
the accept-style merge (unconditional remove-then-append) and the
import-style merge (remove when present, then append) keep the entry
names pairwise distinct, and the two merges agree. -/
theorem merge_preserves_unique_names (syms : List Symbol) (sym : Symbol)
    (h : (syms.map Symbol.entryName).Nodup) :
    ((acceptMergeSymbol syms sym).map Symbol.entryName).Nodup ∧
    ((importMergeSymbol syms sym).map Symbol.entryName).Nodup ∧
    importMergeSymbol syms sym = acceptMergeSymbol syms sym := by
  have hnd := filtered_names_nodup syms sym.entryName h
  have hnot := filtered_names_not_mem syms sym.entryName
  have hacc : ((acceptMergeSymbol syms sym).map Symbol.entryName).Nodup := by
    simp only [acceptMergeSymbol, List.map_append, List.map_cons, List.map_nil]
    exact List.Nodup.append hnd (List.nodup_singleton _)
      (List.disjoint_singleton.2 hnot)
  have heq : importMergeSymbol syms sym = acceptMergeSymbol syms sym := by
    by_cases hm : sym.entryName ∈ syms.map Symbol.entryName
    · simp [importMergeSymbol, acceptMergeSymbol, hm]
    · have hfix : syms.filter (fun s => s.entryName != sym.entryName) = syms := by
        apply List.filter_eq_self.2
        intro s hsmem
        simp only [bne_iff_ne, ne_eq, decide_eq_true_eq]
        intro hc
        exact hm (hc ▸ List.mem_map_of_mem Symbol.entryName hsmem)
      simp [importMergeSymbol, acceptMergeSymbol, hm, hfix]
  exact ⟨hacc, heq ▸ hacc, heq⟩

/-- Claim C6 witness: merging a replacement symbol named A into a
two-symbol library with distinct names A, B. -/
theorem merge_preserves_unique_names_witness :
    ((acceptMergeSymbol [symA, symB] symA2).map Symbol.entryName).Nodup ∧
    ((importMergeSymbol [symA, symB] symA2).map Symbol.entryName).Nodup ∧
    importMergeSymbol [symA, symB] symA2 = acceptMergeSymbol [symA, symB] symA2 :=
  merge_preserves_unique_names [symA, symB] symA2 (by decide)

theorem getLast_decomp (l : List Char) (c : Char) (h : l.getLast? = some c) :
    l = l.dropLast ++ [c] := by
  induction l with
  | nil => simp at h
  | cons a t ih =>
    cases t with
    | nil =>
      simp only [List.getLast?_singleton, Option.some.injEq] at h
      simp [h]
    | cons b t2 =>
      have h2 : (b :: t2).getLast? = some c := by
        simp only [List.getLast?_cons_cons] at h
        exact h
      have ih2 := ih h2
      calc a :: b :: t2 = a :: ((b :: t2).dropLast ++ [c]) := by rw [← ih2]
        _ = (a :: b :: t2).dropLast ++ [c] := by simp

/-- Claim C7: on a table whose trimmed content ends with a closing
parenthesis and which does not contain an entry with the given library
name, ensure_lib_in_table reports true and produces the text before the
final closing parenthesis, unchanged, followed by the new entry and a
closing parenthesis; when an entry with that name is present, the content
is returned unchanged with false. -/
theorem ensure_lib_in_table_spec (content : List Char) (libName libUri libType : String)
    (hno : containsSub (nameEntry libName) content = false)
    (hend : (rstrip content).getLast? = some ')') :
    (ensure_lib_in_table content libName libUri libType).2 = true ∧
    rstrip content = (rstrip content).dropLast ++ [')'] ∧
    (ensure_lib_in_table content libName libUri libType).1
      = (rstrip content).dropLast ++ libEntry libName libType libUri ++ [')', '\n'] ∧
    ∀ c : List Char, ∀ n u ty : String,
      containsSub (nameEntry n) c = true → ensure_lib_in_table c n u ty = (c, false) := by
  refine ⟨?_, getLast_decomp _ _ hend, ?_, ?_⟩
  · simp [ensure_lib_in_table, hno, hend]
  · simp [ensure_lib_in_table, hno, hend]
  · intro c n u ty hc
    simp [ensure_lib_in_table, hc]

/-- Claim C7 witness: inserting a new library entry into a concrete
minimal symbol library table. -/
theorem ensure_lib_in_table_spec_witness :
    (ensure_lib_in_table ("(sym_lib_table\n)").data "Audio-JH" "u" "KiCad").2 = true ∧
    rstrip ("(sym_lib_table\n)").data
      = (rstrip ("(sym_lib_table\n)").data).dropLast ++ [')'] ∧
    (ensure_lib_in_table ("(sym_lib_table\n)").data "Audio-JH" "u" "KiCad").1
      = (rstrip ("(sym_lib_table\n)").data).dropLast ++ libEntry "Audio-JH" "KiCad" "u"
        ++ [')', '\n'] ∧
    (∀ c : List Char, ∀ n u ty : String,
      containsSub (nameEntry n) c = true → ensure_lib_in_table c n u ty = (c, false)) :=
  ensure_lib_in_table_spec ("(sym_lib_table\n)").data "Audio-JH" "u" "KiCad"
    (by decide) (by decide)

/-- Claim C9: normalize_symbol_visibility compares keys case-sensitively
against "Reference" and "Value": a property with effects ends up visible
exactly when its key is one of those two exact strings (a key differing
only in case is hidden), its other fields are preserved, and a property
whose effects are absent is left unchanged. -/
theorem normalize_visibility_spec (s : Symbol) (i : Nat) (p : Property) (e : Effects)
    (hp : s.properties[i]? = some p) (he : p.effects = some e) :
    (normalize_symbol_visibility s).properties.length = s.properties.length ∧
    (∃ e' : Effects,
      (normalize_symbol_visibility s).properties[i]? = some { p with effects := some e' } ∧
      e'.font = e.font ∧
      (e'.hide = false ↔ (p.key = "Reference" ∨ p.key = "Value"))) ∧
    (∀ j : Nat, ∀ r : Property, s.properties[j]? = some r → r.effects = none →
      (normalize_symbol_visibility s).properties[j]? = some r) := by
  refine ⟨by simp [normalize_symbol_visibility], ?_, ?_⟩
  · refine ⟨{ e with hide := if p.key ∈ VISIBLE_PROPERTIES then false else true }, ?_, rfl, ?_⟩
    · simp [normalize_symbol_visibility, List.getElem?_map, hp, normProp, he]
    · by_cases hk : p.key ∈ VISIBLE_PROPERTIES
      · have hk2 : p.key = "Reference" ∨ p.key = "Value" := by
          simpa [VISIBLE_PROPERTIES] using hk
        simp [hk, hk2]
      · have hk2 : ¬(p.key = "Reference" ∨ p.key = "Value") := by
          simpa [VISIBLE_PROPERTIES] using hk
        simp [hk, hk2]
  · intro j r hj hr
    simp [normalize_symbol_visibility, List.getElem?_map, hj, normProp, hr]

/-- Claim C9 witness: a visible property whose key is "value" (lower case)
is hidden by normalize_symbol_visibility, and the effects-free LCSC
property next to it is untouched. -/
theorem normalize_visibility_spec_witness :
    (normalize_symbol_visibility exSymC9).properties.length = exSymC9.properties.length ∧
    (∃ e' : Effects,
      (normalize_symbol_visibility exSymC9).properties[0]?
        = some { valueVisProp with effects := some e' } ∧
      e'.font = visEffects.font ∧
      (e'.hide = false ↔ (valueVisProp.key = "Reference" ∨ valueVisProp.key = "Value"))) ∧
    (∀ j : Nat, ∀ r : Property, exSymC9.properties[j]? = some r → r.effects = none →
      (normalize_symbol_visibility exSymC9).properties[j]? = some r) :=
  normalize_visibility_spec exSymC9 0 valueVisProp visEffects (by decide) (by decide)

/-- Claim C10: get_pin_type is total with a fixed rule order: every signal
name carrying one of the power prefixes is classified power_in even when
it also ends in _CAP (in particular VDD_USB_CAP), and a name matching no
rule at all is classified unspecified. -/
theorem get_pin_type_spec (s t : String)
    (hpre : (startswith s "VDD_" || startswith s "NVCC_" || startswith s "VDDA_"
      || startswith s "DCDC_IN" || startswith s "DCDC_LP") = true)
    (hno : pinRuleMatches t = false) :
    get_pin_type s = "power_in" ∧
    get_pin_type "VDD_USB_CAP" = "power_in" ∧
    get_pin_type t = "unspecified" := by
  refine ⟨?_, by decide, ?_⟩
  · by_cases h0 : (s == "VSS" || s == "DCDC_GND" || s == "NGND_KEL0") = true
    · simp [get_pin_type, h0]
    · simp only [Bool.not_eq_true] at h0
      simp [get_pin_type, h0, hpre]
  · simp only [pinRuleMatches, Bool.or_eq_false_iff] at hno
    simp [get_pin_type, hno]

/-- Claim C10 witness: VDD_USB_CAP is power_in despite its _CAP suffix,
and BOOT_MODE0 matches no rule and is unspecified. -/
theorem get_pin_type_spec_witness :
    get_pin_type "VDD_USB_CAP" = "power_in" ∧
    get_pin_type "VDD_USB_CAP" = "power_in" ∧
    get_pin_type "BOOT_MODE0" = "unspecified" :=
  get_pin_type_spec "VDD_USB_CAP" "BOOT_MODE0" (by decide) (by decide)

end Kicad
